import Mathlib

set_option maxRecDepth 8192

/-!
Verification development for the `mcp-clickhouse` query-gateway server
(`src/mcp_clickhouse/mcp_server.py`).

The module is shallowly embedded: Python values are modelled by the
inductive type `Py`; the database driver (clickhouse-connect / psycopg2)
is an oracle `Env` mapping issued calls to responses; Python exceptions
are modelled with `Except String`; each `@mcp.tool` function is a total
function obtained by wrapping its fallible body (the `try` block) with
the `except` handler, exactly as in the source.
-/

/-- A Python runtime value, as far as this module manipulates them:
strings, ints, lists, dicts (insertion-ordered association lists with
unique keys) and `None`. -/
inductive Py where
  | str : String → Py
  | int : Int → Py
  | list : List Py → Py
  | dict : List (String × Py) → Py
  | none : Py

/-- A single-quote character, used when building SQL literals exactly as
the Python f-strings do. -/
def sqt : String := "\x27"

/-- Python's `str.lower()` (ASCII case folding, which coincides with
Python's behaviour on all configuration values of interest). -/
def pyLower (s : String) : String := String.mk (s.data.map Char.toLower)

mutual

/-- Python's `repr` of a value (enough of it for the values this module
interpolates into f-strings: plain strings, ints, lists, dicts, None). -/
def pyRepr : Py → String
  | Py.str s => sqt ++ s ++ sqt
  | Py.int n => toString n
  | Py.list xs => "[" ++ pyReprList xs ++ "]"
  | Py.dict d => "\x7b" ++ pyReprDict d ++ "\x7d"
  | Py.none => "None"

/-- Comma-joined `repr`s of list elements. -/
def pyReprList : List Py → String
  | [] => ""
  | [x] => pyRepr x
  | x :: y :: xs => pyRepr x ++ ", " ++ pyReprList (y :: xs)

/-- Comma-joined `repr`s of dict entries. -/
def pyReprDict : List (String × Py) → String
  | [] => ""
  | [(k, v)] => sqt ++ k ++ sqt ++ ": " ++ pyRepr v
  | (k, v) :: e :: xs => sqt ++ k ++ sqt ++ ": " ++ pyRepr v ++ ", " ++ pyReprDict (e :: xs)

end

/-- Python's `str()` of a value (what an f-string interpolation produces):
a string is taken verbatim, everything else falls back to `repr`. -/
def pyStr : Py → String
  | Py.str s => s
  | v => pyRepr v

/-- Dict lookup `d[k]` restricted to its successful result: first entry
with the given key (keys are unique in dicts this module builds). -/
def pyGet (v : Py) (k : String) : Option Py :=
  match v with
  | Py.dict d =>
    match d.find? (fun p => p.1 == k) with
    | some p => some p.2
    | Option.none => Option.none
  | _ => Option.none

/-- Python `d[key] = v` on a dict represented as an ordered association
list: an existing key keeps its position and gets the new value, a new
key is appended at the end. -/
def dictSet (d : List (String × Py)) (k : String) (v : Py) : List (String × Py) :=
  if d.any (fun p => p.1 == k) then
    d.map (fun p => if p.1 == k then (p.1, v) else p)
  else
    d ++ [(k, v)]

/-- The process configuration (the `db:` section of `config.yml`):
`type` is optional (the source defaults it to `"clickhouse"`), the other
connection fields are required by the source (`config["db"]["host"]`
etc. would raise `KeyError` if absent, so a loadable configuration has
them). `dbType` mirrors the `type` entry. -/
structure Config where
  dbType : Option String
  host : String
  port : Nat
  username : String
  password : String
  database : Option String

/-- A call issued to the database driver: `client.query(q, settings)` on
a clickhouse-connect client, `client.command(q)` on a clickhouse-connect
client, or `cursor.execute(q)` on a psycopg2 connection. -/
inductive DbCall where
  | chQuery (query : String) (settings : List (String × Nat)) : DbCall
  | chCommand (query : String) : DbCall
  | pgExecute (query : String) : DbCall
deriving DecidableEq

/-- The external database backend, modelled as an oracle.  `chQuery`
returns a clickhouse `QueryResult` as its `(column_names, result_rows)`
pair; `chCommand` returns the raw `client.command` value; `pgExecute`
returns the cursor's `(description column names, fetchall rows)`.
`chConnect` / `pgConnect` model `clickhouse_connect.get_client` /
`psycopg2.connect` succeeding or raising. -/
structure Env where
  chConnect : Except String Unit
  pgConnect : Except String Unit
  chQuery : String → List (String × Nat) → Except String (List String × List (List Py))
  chCommand : String → Except String Py
  pgExecute : String → Except String (List String × List (List Py))

/-- `config["db"].get("type", "clickhouse").lower()` — the backend-kind
resolution performed (identically) at every dispatch site in the source. -/
def resolveDbType (cfg : Config) : String := pyLower (cfg.dbType.getD "clickhouse")

/-- The settings dict `{"readonly": 1}` passed by `execute_query` to
`client.query` in the clickhouse read-only branch. -/
def roSettings : List (String × Nat) := [("readonly", 1)]

/-- `create_db_client` (mcp_server.py lines 38-64): dispatch on the
resolved backend kind; an unsupported kind raises
`ValueError(f"Unsupported database type: {db_type}")` (the spec's
`UnsupportedBackendError`). The connection parameters (host, port,
username, password, database) are passed to the driver, which the `Env`
oracle absorbs. -/
def create_db_client (env : Env) (cfg : Config) : Except String Unit :=
  if resolveDbType cfg = "clickhouse" then
    env.chConnect
  else if resolveDbType cfg = "postgres" then
    env.pgConnect
  else
    Except.error ("Unsupported database type: " ++ resolveDbType cfg)

/-- The body of the normalization loop of `execute_query`
(lines 75-79 / 89-93): `for i, col_name in enumerate(column_names):
row_dict[col_name] = row[i]`, starting from dict `acc` at index `i`;
an out-of-range index raises `IndexError` as in Python. -/
def buildRowAux : List String → List Py → Nat → List (String × Py) →
    Except String (List (String × Py))
  | [], _, _, acc => Except.ok acc
  | c :: cs, row, i, acc =>
    match row.get? i with
    | some v => buildRowAux cs row (i + 1) (dictSet acc c v)
    | Option.none => Except.error "IndexError: tuple index out of range"

/-- The outer normalization loop of `execute_query`: one dict per result
row, in result order, aborting at the first failure. -/
def buildRows (cols : List String) : List (List Py) → Except String (List Py)
  | [] => Except.ok []
  | r :: rs => do
    let d ← buildRowAux cols r 0 []
    let rest ← buildRows cols rs
    Except.ok (Py.dict d :: rest)

/-- `execute_query` (lines 66-98).  Clickhouse + readonly issues
`client.query(query, settings={"readonly": 1})` and normalizes the rows;
clickhouse without readonly issues `client.command(query)`;
postgres issues `cursor.execute(query)` and either normalizes
(readonly) or returns the raw `fetchall()` tuples; an unknown backend
kind falls through both branches and returns Python `None`.  The
source binds `db_type` once per function; the resolution is a pure
function of the configuration, so it is inlined here. -/
def execute_queryInner (env : Env) (cfg : Config) (query : String) (readonly : Bool) :
    Except String Py :=
  if resolveDbType cfg = "clickhouse" then
    if readonly then
      match env.chQuery query roSettings with
      | Except.error e => Except.error e
      | Except.ok (column_names, result_rows) =>
        match buildRows column_names result_rows with
        | Except.error e => Except.error e
        | Except.ok rows => Except.ok (Py.list rows)
    else
      env.chCommand query
  else if resolveDbType cfg = "postgres" then
    match env.pgExecute query with
    | Except.error e => Except.error e
    | Except.ok (description, allRows) =>
      if readonly then
        match buildRows description allRows with
        | Except.error e => Except.error e
        | Except.ok rows => Except.ok (Py.list rows)
      else
        Except.ok (Py.list (allRows.map Py.list))
  else
    Except.ok Py.none

/-- The `try/except` wrapper of `execute_query`: every exception raised
inside the `try` block is re-raised as
`Exception(f"Query execution error: {e}")`. -/
def execute_query (env : Env) (cfg : Config) (query : String) (readonly : Bool) :
    Except String Py :=
  match execute_queryInner env cfg query readonly with
  | Except.ok v => Except.ok v
  | Except.error e => Except.error ("Query execution error: " ++ e)

/-- The (single) driver call `execute_query` issues for a given
configuration, query and readonly flag — read off the dispatch structure
of `execute_query` (an unknown backend kind issues nothing). -/
def executeQueryIssued (cfg : Config) (query : String) (readonly : Bool) : List DbCall :=
  if resolveDbType cfg = "clickhouse" then
    if readonly then [DbCall.chQuery query roSettings] else [DbCall.chCommand query]
  else if resolveDbType cfg = "postgres" then
    [DbCall.pgExecute query]
  else
    []

/-- Agreement of two backend oracles on one call. -/
def callAgrees (env env' : Env) : DbCall → Prop
  | DbCall.chQuery q s => env.chQuery q s = env'.chQuery q s
  | DbCall.chCommand q => env.chCommand q = env'.chCommand q
  | DbCall.pgExecute q => env.pgExecute q = env'.pgExecute q

/-- Read-only enforcement at the session/settings level, in the sense of
the specification: a clickhouse `client.query` call whose settings carry
`readonly = 1`.  A bare `client.command` or psycopg2 `cursor.execute`
call carries no such enforcement. -/
def readonlyEnforcedB : DbCall → Bool
  | DbCall.chQuery _ s => s.any (fun p => p.1 == "readonly" && p.2 == 1)
  | DbCall.chCommand _ => false
  | DbCall.pgExecute _ => false

/-- Python truthiness of the optional `like` argument (`if like:`):
`None` and the empty string are falsy. -/
def likeTruthy : Option String → Bool
  | Option.none => false
  | some l => !(l == "")

/-- Python `obj[0]`: first element of a list, `IndexError` on an empty
list, `TypeError` on a non-subscriptable value. -/
def pyIndex0 : Py → Except String Py
  | Py.list (x :: _) => Except.ok x
  | Py.list [] => Except.error "IndexError: list index out of range"
  | _ => Except.error "TypeError: object is not subscriptable"

/-- `f"SHOW TABLES FROM {database}"`, with `f" LIKE '{like}'"` appended
when `like` is truthy (mcp_server.py lines 167-170). -/
def chListTablesQuery (database : String) (like : Option String) : String :=
  let q := "SHOW TABLES FROM " ++ database
  if likeTruthy like then q ++ " LIKE " ++ sqt ++ (like.getD "") ++ sqt else q

/-- The postgres table-listing query (lines 172-179), with
`f" AND table_name LIKE '{like}'"` appended when `like` is truthy.
The source writes it as a triple-quoted string; surrounding whitespace
is normalized here, the clauses and their order are the source's. -/
def pgListTablesQuery (database : String) (like : Option String) : String :=
  let q := "SELECT table_name FROM information_schema.tables WHERE table_schema = "
    ++ sqt ++ database ++ sqt ++ " AND table_type = " ++ sqt ++ "BASE TABLE" ++ sqt
  if likeTruthy like then
    q ++ " AND table_name LIKE " ++ sqt ++ (like.getD "") ++ sqt
  else q

/-- `f"DESCRIBE TABLE {database}.`{table}`"` (line 129).  `table` is
whatever Python value the caller supplies; the f-string applies `str()`
to it. -/
def chDescribeQuery (database : String) (table : Py) : String :=
  "DESCRIBE TABLE " ++ database ++ ".`" ++ pyStr table ++ "`"

/-- `f"SHOW CREATE TABLE {database}.`{table}`"` (line 130). -/
def chShowCreateQuery (database : String) (table : Py) : String :=
  "SHOW CREATE TABLE " ++ database ++ ".`" ++ pyStr table ++ "`"

/-- The postgres column-schema query (lines 132-137), whitespace
normalized. -/
def pgSchemaQuery (database : String) (table : Py) : String :=
  "SELECT column_name as name, data_type as type, is_nullable as default_kind, "
    ++ "column_default as default_expression FROM information_schema.columns "
    ++ "WHERE table_schema = " ++ sqt ++ database ++ sqt
    ++ " AND table_name = " ++ sqt ++ pyStr table ++ sqt

/-- The postgres create-statement query (lines 138-140), whitespace
normalized. -/
def pgCreateQuery (database : String) (table : Py) : String :=
  "SELECT pg_get_tabledef(" ++ sqt ++ database ++ "." ++ pyStr table ++ sqt
    ++ "::regclass::oid)"

/-- The `try`-block of `get_table_info` (lines 124-150): build the two
backend-specific queries, run both read-only, assemble the Table
Descriptor dict (for postgres the create-statement result is indexed
with `[0]`).  `table` is kept at type `Py` because `list_tables` passes
raw extracted values, which on the clickhouse path are row mappings. -/
def get_table_infoBody (env : Env) (cfg : Config) (database : String) (table : Py) :
    Except String Py := do
  if resolveDbType cfg = "clickhouse" then
    let columns ← execute_query env cfg (chDescribeQuery database table) true
    let create_table_result ← execute_query env cfg (chShowCreateQuery database table) true
    Except.ok (Py.dict
      [("database", Py.str database), ("name", table), ("columns", columns),
       ("create_table_query", create_table_result)])
  else if resolveDbType cfg = "postgres" then
    let columns ← execute_query env cfg (pgSchemaQuery database table) true
    let create_table_result ← execute_query env cfg (pgCreateQuery database table) true
    let first ← pyIndex0 create_table_result
    Except.ok (Py.dict
      [("database", Py.str database), ("name", table), ("columns", columns),
       ("create_table_query", first)])
  else
    Except.error "NameError: name schema_query is not defined"

/-- `get_table_info` (lines 123-153): its own `try/except` turns any
failure into an `{"error": message}` dict item. -/
def get_table_info (env : Env) (cfg : Config) (database : String) (table : Py) : Py :=
  match get_table_infoBody env cfg database table with
  | Except.ok v => v
  | Except.error m => Py.dict [("error", Py.str m)]

/-- Table-name extraction in `list_tables` (lines 183-192): clickhouse
branches on whether the result is a string (split on whitespace,
stripped, empties dropped) and otherwise uses the result as-is; every
other backend (the `else` is the postgres branch) extracts
`row['table_name']` from each row mapping.  Iterating or subscripting an
unsuitable value raises, as in Python. -/
def extractTableNames (db_type : String) (result : Py) : Except String (List Py) :=
  if db_type = "clickhouse" then
    match result with
    | Py.str s =>
      Except.ok ((((s.split Char.isWhitespace).map String.trim).filter
        (fun t => !(t == ""))).map Py.str)
    | Py.list xs => Except.ok xs
    | _ => Except.error "TypeError: object is not iterable"
  else
    match result with
    | Py.list rows => rows.mapM (fun row =>
        match pyGet row "table_name" with
        | some v => Except.ok v
        | Option.none => Except.error "KeyError or TypeError: table_name")
    | _ => Except.error "TypeError: object is not iterable"

/-- The listing phase of `list_tables` (lines 162-192): create the
client, build the backend-specific listing query, execute it read-only,
extract the table names. -/
def listedTables (env : Env) (cfg : Config) (database : String) (like : Option String) :
    Except String (List Py) := do
  let _ ← create_db_client env cfg
  let query ←
    if resolveDbType cfg = "clickhouse" then Except.ok (chListTablesQuery database like)
    else if resolveDbType cfg = "postgres" then Except.ok (pgListTablesQuery database like)
    else Except.error "NameError: name query is not defined"
  let result ← execute_query env cfg query true
  extractTableNames (resolveDbType cfg) result

/-- The `try`-block of `list_tables` (lines 162-198): list the tables,
then build one `get_table_info` item per table, in discovery order. -/
def list_tablesBody (env : Env) (cfg : Config) (database : String) (like : Option String) :
    Except String Py := do
  let table_names ← listedTables env cfg database like
  Except.ok (Py.list (table_names.map (fun t => get_table_info env cfg database t)))

/-- The `list_tables` tool (lines 155-201): outer failures become a
single top-level `{"error": message}` dict. -/
def list_tables (env : Env) (cfg : Config) (database : String) (like : Option String) : Py :=
  match list_tablesBody env cfg database like with
  | Except.ok v => v
  | Except.error m => Py.dict [("error", Py.str m)]

/-- The `try`-block of `list_databases` (lines 105-117): create the
client, pick the backend catalog query, execute it (not read-only) and
return the raw result. -/
def list_databasesBody (env : Env) (cfg : Config) : Except String Py := do
  let _ ← create_db_client env cfg
  let query ←
    if resolveDbType cfg = "clickhouse" then Except.ok "SHOW DATABASES"
    else if resolveDbType cfg = "postgres" then
      Except.ok "SELECT datname FROM pg_database WHERE datistemplate = false"
    else Except.error "NameError: name query is not defined"
  execute_query env cfg query false

/-- The `list_databases` tool (lines 101-120): failures become
`{"error": message}`. -/
def list_databases (env : Env) (cfg : Config) : Py :=
  match list_databasesBody env cfg with
  | Except.ok v => v
  | Except.error m => Py.dict [("error", Py.str m)]

/-- The `try`-block of `run_select_query` (lines 208-213): create the
client and execute the given query with `readonly=True`. -/
def run_select_queryBody (env : Env) (cfg : Config) (query : String) : Except String Py := do
  let _ ← create_db_client env cfg
  execute_query env cfg query true

/-- The `run_select_query` tool (lines 203-216): failures become the
bare string `f"error running query: {err}"`. -/
def run_select_query (env : Env) (cfg : Config) (query : String) : Py :=
  match run_select_queryBody env cfg query with
  | Except.ok v => v
  | Except.error m => Py.str ("error running query: " ++ m)

/-- The driver calls `run_select_query` issues: none when client
creation fails, otherwise exactly those of
`execute_query(client, query, readonly=True)`. -/
def run_select_queryIssued (env : Env) (cfg : Config) (query : String) : List DbCall :=
  match create_db_client env cfg with
  | Except.error _ => []
  | Except.ok _ => executeQueryIssued cfg query true

/-- Is an `Except` value a success (Python: the call returned without
raising)? -/
def isOkB : Except String Py → Bool
  | Except.ok _ => true
  | Except.error _ => false

/-- Shape of a successfully built Table Descriptor: a dict with exactly
the keys `database`, `name`, `columns`, `create_table_query` in that
order (the dict literal of `get_table_info`). -/
def isDescriptor : Py → Bool
  | Py.dict d => d.map Prod.fst == ["database", "name", "columns", "create_table_query"]
  | _ => false

/-- Are all elements of a list Python strings? -/
def allStringsB (l : List Py) : Bool :=
  l.all (fun v => match v with | Py.str _ => true | _ => false)

/-- Length of a Python list hidden behind an `Option`, for stating
length facts about a descriptor's `columns` field. -/
def pyLen : Option Py → Option Nat
  | some (Py.list l) => some l.length
  | _ => Option.none

/-- The `name` field of an item, when it is a plain string. -/
def nameFieldStr (v : Py) : Option String :=
  match pyGet v "name" with
  | some (Py.str s) => some s
  | _ => Option.none

/-- A well-formed configuration with no `type` entry (the source then
defaults to clickhouse). -/
def cfgCH : Config :=
  { dbType := Option.none, host := "localhost", port := 8123,
    username := "u", password := "p", database := Option.none }

/-- A configuration selecting the postgres backend. -/
def cfgPG : Config := { cfgCH with dbType := some "postgres" }

/-- A configuration with the unsupported backend kind `"mysql"`. -/
def cfgMy : Config := { cfgCH with dbType := some "mysql" }

/-- A configuration with the mixed-case backend kind `"Postgres"`. -/
def cfgCap : Config := { cfgCH with dbType := some "Postgres" }

/-- A backend that accepts connections but fails every query. -/
def envT : Env :=
  { chConnect := Except.ok (), pgConnect := Except.ok (),
    chQuery := fun _ _ => Except.error "no backend",
    chCommand := fun _ => Except.error "no backend",
    pgExecute := fun _ => Except.error "no backend" }

/-- An unreachable backend: both connection attempts raise. -/
def envBad : Env :=
  { envT with chConnect := Except.error "Connection refused",
              pgConnect := Except.error "Connection refused" }

/-- A clickhouse backend answering `SELECT 1 AS x` with one column `x`
and one row `(1,)`. -/
def envSel1 : Env :=
  { envT with chQuery := fun q _ =>
      if q = "SELECT 1 AS x" then Except.ok (["x"], [[Py.int 1]])
      else Except.error "no such query" }

/-- A clickhouse backend answering a projection with the repeated column
name `x` twice, values 1 and 2. -/
def envDup : Env :=
  { envT with chQuery := fun q _ =>
      if q = "SELECT 1 AS x, 2 AS x" then Except.ok (["x", "x"], [[Py.int 1, Py.int 2]])
      else Except.error "no such query" }

/-- A clickhouse backend holding a table `t` in database `db` whose
describe query reports two fields and whose create-statement query
succeeds. -/
def envDesc : Env :=
  { envT with chQuery := fun q _ =>
      if q = chDescribeQuery "db" (Py.str "t") then
        Except.ok (["name", "type"],
          [[Py.str "id", Py.str "UInt64"], [Py.str "v", Py.str "String"]])
      else if q = chShowCreateQuery "db" (Py.str "t") then
        Except.ok (["statement"], [[Py.str "CREATE TABLE db.t (id UInt64, v String)"]])
      else Except.error "no such query" }

/-- A clickhouse backend whose `SHOW TABLES FROM shop` listing reports a
single table `orders` (one row of the single column `name`, as the
clickhouse driver shapes `SHOW TABLES` query results). -/
def envOne : Env :=
  { envT with chQuery := fun q _ =>
      if q = chListTablesQuery "shop" Option.none then
        Except.ok (["name"], [[Py.str "orders"]])
      else Except.error "no such query" }

/-- A clickhouse backend for the `shop` database of the specification's
LIKE scenario: the filtered listing returns `orders` and `order_items`,
the unfiltered one also `users`; every other (describe / create)
query succeeds with a fixed one-field schema. -/
def envShop : Env :=
  { envT with chQuery := fun q _ =>
      if q = chListTablesQuery "shop" (some "ord%") then
        Except.ok (["name"], [[Py.str "orders"], [Py.str "order_items"]])
      else if q = chListTablesQuery "shop" Option.none then
        Except.ok (["name"], [[Py.str "orders"], [Py.str "order_items"], [Py.str "users"]])
      else Except.ok (["name", "type"], [[Py.str "id", Py.str "UInt64"]]) }

/-- The three tables of the partial-failure witness database, as
extracted by the postgres branch of `list_tables`. -/
def tsW : List Py := [Py.str "a", Py.str "b", Py.str "c"]

/-- A postgres backend with tables `a`, `b`, `c` in schema `d`, where
the column-schema query for `b` alone fails (with message `boom`) and
everything else succeeds. -/
def envW : Env :=
  { envT with pgExecute := fun q =>
      if q = pgListTablesQuery "d" Option.none then
        Except.ok (["table_name"], [[Py.str "a"], [Py.str "b"], [Py.str "c"]])
      else if q = pgSchemaQuery "d" (Py.str "b") then
        Except.error "boom"
      else if q = pgSchemaQuery "d" (Py.str "a") ∨ q = pgSchemaQuery "d" (Py.str "c") then
        Except.ok (["name", "type", "default_kind", "default_expression"],
          [[Py.str "id", Py.str "integer", Py.str "NO", Py.none]])
      else if q = pgCreateQuery "d" (Py.str "a") ∨ q = pgCreateQuery "d" (Py.str "c") then
        Except.ok (["pg_get_tabledef"], [[Py.str "CREATE TABLE ..."]])
      else Except.error "no such query" }

/-- A postgres backend answering every execute with one column `x`, one
row `(1,)`. -/
def envPgUp : Env :=
  { envT with pgExecute := fun _ => Except.ok (["x"], [[Py.int 1]]) }

/-- The same postgres backend with the query path down: used to show
`run_select_query` really consults `cursor.execute`. -/
def envPgDown : Env :=
  { envT with pgExecute := fun _ => Except.error "down" }

/-- The descriptor item for `orders` actually produced by `list_tables`
on the `envShop` backend (its `name` field is the raw result-row
mapping, not the table-name string). -/
def shopItem1 : Py :=
  Py.dict [("database", Py.str "shop"), ("name", Py.dict [("name", Py.str "orders")]),
    ("columns", Py.list [Py.dict [("name", Py.str "id"), ("type", Py.str "UInt64")]]),
    ("create_table_query", Py.list [Py.dict [("name", Py.str "id"), ("type", Py.str "UInt64")]])]

/-- The corresponding item for `order_items`. -/
def shopItem2 : Py :=
  Py.dict [("database", Py.str "shop"), ("name", Py.dict [("name", Py.str "order_items")]),
    ("columns", Py.list [Py.dict [("name", Py.str "id"), ("type", Py.str "UInt64")]]),
    ("create_table_query", Py.list [Py.dict [("name", Py.str "id"), ("type", Py.str "UInt64")]])]

/-- The descriptor produced by `get_table_info` for table `t` of
database `db` on the `envDesc` backend. -/
def descT : Py :=
  Py.dict [("database", Py.str "db"), ("name", Py.str "t"),
    ("columns", Py.list [Py.dict [("name", Py.str "id"), ("type", Py.str "UInt64")],
                         Py.dict [("name", Py.str "v"), ("type", Py.str "String")]]),
    ("create_table_query",
      Py.list [Py.dict [("statement", Py.str "CREATE TABLE db.t (id UInt64, v String)")]])]

theorem resolveDbType_congr (env : Env) (cfg cfg' : Config) (q : String) (ro : Bool)
    (h : resolveDbType cfg = resolveDbType cfg') :
    create_db_client env cfg = create_db_client env cfg'
      ∧ execute_query env cfg q ro = execute_query env cfg' q ro := by
  unfold create_db_client execute_query execute_queryInner
  rw [h]
  exact ⟨rfl, rfl⟩

theorem dictSet_not_mem (acc : List (String × Py)) (c : String) (v : Py)
    (h : ∀ p ∈ acc, p.1 ≠ c) : dictSet acc c v = acc ++ [(c, v)] := by
  unfold dictSet
  have hany : acc.any (fun p => p.1 == c) = false := by
    rw [List.any_eq_false]
    intro p hp
    simp [h p hp]
  rw [hany]
  simp

theorem dictSet_keys (acc : List (String × Py)) (c k : String) (v : Py) :
    k ∈ (dictSet acc c v).map Prod.fst ↔ k ∈ acc.map Prod.fst ∨ k = c := by
  unfold dictSet
  by_cases h : acc.any (fun p => p.1 == c) = true
  · rw [if_pos h]
    have hkeys : (acc.map (fun p => if p.1 == c then (p.1, v) else p)).map Prod.fst
        = acc.map Prod.fst := by
      rw [List.map_map]
      apply List.map_congr_left
      intro p _
      by_cases hc : p.1 = c <;> simp [hc]
    rw [hkeys]
    constructor
    · exact Or.inl
    · rintro (hk | rfl)
      · exact hk
      · obtain ⟨p, hp, hpc⟩ := List.any_eq_true.mp h
        have hpk : p.1 = k := by simpa using hpc
        exact List.mem_map.mpr ⟨p, hp, hpk⟩
  · rw [if_neg h]
    rw [List.map_append]
    simp [List.mem_append]

theorem get_drop_cons (l : List Py) : ∀ i, i < l.length →
    ∃ v, l.get? i = some v ∧ l.drop i = v :: l.drop (i + 1) := by
  induction l with
  | nil => intro i h; simp at h
  | cons a t ih =>
    intro i h
    match i with
    | 0 => exact ⟨a, rfl, rfl⟩
    | Nat.succ j =>
      obtain ⟨v, h1, h2⟩ := ih j (by simpa using h)
      exact ⟨v, h1, h2⟩

theorem buildRowAux_zip : ∀ (cols : List String) (row : List Py) (i : Nat)
    (acc : List (String × Py)), cols.Nodup →
    (∀ c ∈ cols, ∀ p ∈ acc, p.1 ≠ c) →
    i + cols.length ≤ row.length →
    buildRowAux cols row i acc = Except.ok (acc ++ cols.zip (row.drop i)) := by
  intro cols
  induction cols with
  | nil => intro row i acc _ _ _; simp [buildRowAux]
  | cons c cs ih =>
    intro row i acc hnd hdis hlen
    have hi : i < row.length := by simp at hlen; omega
    obtain ⟨v, hget, hdrop⟩ := get_drop_cons row i hi
    simp only [buildRowAux, hget]
    have hset : dictSet acc c v = acc ++ [(c, v)] :=
      dictSet_not_mem acc c v (fun p hp => hdis c (List.mem_cons_self c cs) p hp)
    rw [hset]
    have hden : (i + 1) + cs.length ≤ row.length := by simp at hlen; omega
    have hdis' : ∀ c' ∈ cs, ∀ p ∈ acc ++ [(c, v)], p.1 ≠ c' := by
      intro c' hc' p hp
      rcases List.mem_append.mp hp with hp | hp
      · exact hdis c' (List.mem_cons_of_mem c hc') p hp
      · rcases List.mem_singleton.mp hp with rfl
        intro hcc
        simp only at hcc
        subst hcc
        exact (List.nodup_cons.mp hnd).1 hc' 
    rw [ih row (i + 1) (acc ++ [(c, v)]) hnd.of_cons hdis' hden]
    rw [hdrop]
    simp

theorem buildRows_zip (cols : List String) : ∀ (rws : List (List Py)),
    cols.Nodup → (∀ r ∈ rws, cols.length ≤ r.length) →
    buildRows cols rws = Except.ok (rws.map (fun r => Py.dict (cols.zip r))) := by
  intro rws
  induction rws with
  | nil => intro _ _; rfl
  | cons r rs ih =>
    intro hnd hlen
    have h1 : buildRowAux cols r 0 [] = Except.ok ([] ++ cols.zip (r.drop 0)) :=
      buildRowAux_zip cols r 0 [] hnd (by simp)
        (by simpa using hlen r (List.mem_cons_self r rs))
    unfold buildRows
    rw [h1, ih hnd (fun r' hr' => hlen r' (List.mem_cons_of_mem r hr'))]
    rfl

theorem buildRowAux_keys : ∀ (cols : List String) (row : List Py) (i : Nat)
    (acc d : List (String × Py)), buildRowAux cols row i acc = Except.ok d →
    ∀ k, k ∈ d.map Prod.fst ↔ k ∈ acc.map Prod.fst ∨ k ∈ cols := by
  intro cols
  induction cols with
  | nil =>
    intro row i acc d h k
    simp [buildRowAux] at h
    subst h
    simp
  | cons c cs ih =>
    intro row i acc d h k
    cases hget : row.get? i with
    | none => simp only [buildRowAux, hget] at h; exact absurd h (by simp)
    | some v =>
      simp only [buildRowAux, hget] at h
      rw [ih row (i + 1) (dictSet acc c v) d h k]
      rw [dictSet_keys]
      simp [List.mem_cons]
      tauto

theorem buildRows_keys (cols : List String) : ∀ (rws : List (List Py)) (rs : List Py),
    buildRows cols rws = Except.ok rs →
    ∀ r ∈ rs, ∃ d, r = Py.dict d ∧ ∀ k, k ∈ d.map Prod.fst ↔ k ∈ cols := by
  intro rws
  induction rws with
  | nil =>
    intro rs h r hr
    simp [buildRows] at h
    subst h
    simp at hr
  | cons w ws ih =>
    intro rs h r hr
    cases h1 : buildRowAux cols w 0 [] with
    | error e => simp only [buildRows, h1] at h; exact Except.noConfusion h
    | ok d =>
      cases h2 : buildRows cols ws with
      | error e => simp only [buildRows, h1, h2] at h; exact Except.noConfusion h
      | ok rest =>
        simp only [buildRows, h1, h2] at h
        have h3 : Py.dict d :: rest = rs := Except.ok.inj h
        subst h3
        rcases List.mem_cons.mp hr with hr1 | hr2
        · subst hr1
          refine ⟨d, rfl, fun k => ?_⟩
          rw [buildRowAux_keys cols w 0 [] d h1 k]
          simp
        · exact ih rest h2 r hr2

theorem buildRows_length (cols : List String) : ∀ (rws : List (List Py)) (rs : List Py),
    buildRows cols rws = Except.ok rs → rs.length = rws.length := by
  intro rws
  induction rws with
  | nil =>
    intro rs h
    simp [buildRows] at h
    subst h
    rfl
  | cons w ws ih =>
    intro rs h
    cases h1 : buildRowAux cols w 0 [] with
    | error e => simp only [buildRows, h1] at h; exact Except.noConfusion h
    | ok d =>
      cases h2 : buildRows cols ws with
      | error e => simp only [buildRows, h1, h2] at h; exact Except.noConfusion h
      | ok rest =>
        simp only [buildRows, h1, h2] at h
        have h3 : Py.dict d :: rest = rs := Except.ok.inj h
        subst h3
        simp [ih rest h2]

theorem getD_map_getD (F : Py → Py) : ∀ (l : List Py) (j : Nat), j < l.length →
    (l.map F).getD j Py.none = F (l.getD j Py.none) := by
  intro l
  induction l with
  | nil => intro j h; simp at h
  | cons a t ih =>
    intro j h
    match j with
    | 0 => rfl
    | Nat.succ i => exact ih i (by simpa using h)

theorem get_table_infoBody_ok (env : Env) (cfg : Config) (db : String) (t : Py) (v : Py)
    (h : get_table_infoBody env cfg db t = Except.ok v) : isDescriptor v = true := by
  unfold get_table_infoBody at h
  by_cases hch : resolveDbType cfg = "clickhouse"
  · rw [if_pos hch] at h
    cases h1 : execute_query env cfg (chDescribeQuery db t) true with
    | error e => rw [h1] at h; exact Except.noConfusion h
    | ok columns =>
      rw [h1] at h
      cases h2 : execute_query env cfg (chShowCreateQuery db t) true with
      | error e => rw [h2] at h; exact Except.noConfusion h
      | ok w =>
        rw [h2] at h
        have h3 := Except.ok.inj h
        subst h3
        rfl
  · rw [if_neg hch] at h
    by_cases hpg : resolveDbType cfg = "postgres"
    · rw [if_pos hpg] at h
      cases h1 : execute_query env cfg (pgSchemaQuery db t) true with
      | error e => rw [h1] at h; exact Except.noConfusion h
      | ok columns =>
        rw [h1] at h
        cases h2 : execute_query env cfg (pgCreateQuery db t) true with
        | error e => rw [h2] at h; exact Except.noConfusion h
        | ok w =>
          rw [h2] at h
          have h4 : pyIndex0 w >>= (fun first => Except.ok (Py.dict
              [("database", Py.str db), ("name", t), ("columns", columns),
               ("create_table_query", first)])) = Except.ok v := h
          cases h3 : pyIndex0 w with
          | error e => rw [h3] at h4; exact Except.noConfusion h4
          | ok f =>
            rw [h3] at h4
            have h5 := Except.ok.inj h4
            subst h5
            rfl
    · rw [if_neg hpg] at h
      exact Except.noConfusion h

theorem list_tables_of_listed (env : Env) (cfg : Config) (db : String) (like : Option String) :
    (∀ ts, listedTables env cfg db like = Except.ok ts →
      list_tables env cfg db like
        = Py.list (ts.map (fun t => get_table_info env cfg db t)))
    ∧ (∀ m, listedTables env cfg db like = Except.error m →
      list_tables env cfg db like = Py.dict [("error", Py.str m)]) := by
  constructor
  · intro ts h
    unfold list_tables list_tablesBody
    rw [h]
    rfl
  · intro m h
    unfold list_tables list_tablesBody
    rw [h]
    rfl

/-- C5: for every configuration whose resolved backend kind is neither
`clickhouse` nor `postgres`, client creation fails with the
unsupported-backend error (the source's
`ValueError(f"Unsupported database type: {db_type}")`, the spec's
`UnsupportedBackendError`), whose message names the offending resolved
backend-kind value. -/
theorem create_db_client_unsupported (env : Env) (cfg : Config)
    (h1 : resolveDbType cfg ≠ "clickhouse") (h2 : resolveDbType cfg ≠ "postgres") :
    create_db_client env cfg
      = Except.error ("Unsupported database type: " ++ resolveDbType cfg) := by
  unfold create_db_client
  rw [if_neg h1, if_neg h2]

/-- C5 witness: with backend kind `"mysql"` the error names `"mysql"`. -/
theorem create_db_client_unsupported_witness :
    create_db_client envT cfgMy = Except.error "Unsupported database type: mysql" :=
  (create_db_client_unsupported envT cfgMy (by decide) (by decide)).trans rfl

/-- C10: backend-kind resolution is defaulting and case-insensitive: a
configuration with no `type` entry behaves (in `create_db_client` and in
`execute_query`, whose dispatch all other call sites share) exactly like
`type: clickhouse`, and any value lowercasing to `"clickhouse"` or
`"postgres"` behaves exactly like that lowercase value. -/
theorem backend_resolution_lower_default (env : Env) (cfg : Config) (s q : String)
    (ro : Bool) :
    (cfg.dbType = Option.none →
      create_db_client env cfg = create_db_client env { cfg with dbType := some "clickhouse" }
      ∧ execute_query env cfg q ro
        = execute_query env { cfg with dbType := some "clickhouse" } q ro)
    ∧ (cfg.dbType = some s → pyLower s = "clickhouse" →
      create_db_client env cfg = create_db_client env { cfg with dbType := some "clickhouse" }
      ∧ execute_query env cfg q ro
        = execute_query env { cfg with dbType := some "clickhouse" } q ro)
    ∧ (cfg.dbType = some s → pyLower s = "postgres" →
      create_db_client env cfg = create_db_client env { cfg with dbType := some "postgres" }
      ∧ execute_query env cfg q ro
        = execute_query env { cfg with dbType := some "postgres" } q ro) := by
  refine ⟨fun h => ?_, fun h hl => ?_, fun h hl => ?_⟩
  · apply resolveDbType_congr
    simp [resolveDbType, h]
  · apply resolveDbType_congr
    simp [resolveDbType, h, hl]
    rfl
  · apply resolveDbType_congr
    simp [resolveDbType, h, hl]
    rfl

/-- C10 witness: `type: Postgres` behaves exactly like `type: postgres`. -/
theorem backend_resolution_lower_default_witness :
    create_db_client envT cfgCap
      = create_db_client envT { cfgCap with dbType := some "postgres" }
    ∧ execute_query envT cfgCap "SELECT 1" true
      = execute_query envT { cfgCap with dbType := some "postgres" } "SELECT 1" true :=
  (backend_resolution_lower_default envT cfgCap "Postgres" "SELECT 1" true).2.2 rfl rfl

/-- C1 counterexample: with the postgres backend, `run_select_query`
issues exactly one driver call — a bare `cursor.execute` that carries no
session/settings-level read-only enforcement — and that call is really
consulted, since changing its response changes the tool's output.  This
refutes the claim that the query is never issued without read-only
enforcement active for both backends. -/
theorem run_select_query_postgres_no_readonly_cex :
    run_select_queryIssued envPgUp cfgPG "SELECT 1" = [DbCall.pgExecute "SELECT 1"]
    ∧ readonlyEnforcedB (DbCall.pgExecute "SELECT 1") = false
    ∧ run_select_query envPgUp cfgPG "SELECT 1" ≠ run_select_query envPgDown cfgPG "SELECT 1" :=
  ⟨rfl, rfl, fun h => Py.noConfusion h⟩

/-- C1 amended: with the clickhouse backend every driver call issued by
`run_select_query` carries the session-level setting `readonly = 1`;
with the postgres backend the single issued call is a bare
`cursor.execute` with no session/settings-level read-only enforcement
(the `readonly` flag there only selects row normalization). -/
theorem run_select_query_readonly_enforcement (env : Env) (cfg : Config) (q : String) :
    (resolveDbType cfg = "clickhouse" →
      ∀ c ∈ run_select_queryIssued env cfg q, readonlyEnforcedB c = true)
    ∧ (resolveDbType cfg = "postgres" →
      ∀ c ∈ run_select_queryIssued env cfg q,
        c = DbCall.pgExecute q ∧ readonlyEnforcedB c = false) := by
  constructor
  · intro h c hc
    unfold run_select_queryIssued at hc
    cases hcr : create_db_client env cfg with
    | error e => rw [hcr] at hc; simp at hc
    | ok u =>
      rw [hcr] at hc
      unfold executeQueryIssued at hc
      rw [if_pos h] at hc
      simp at hc
      subst hc
      rfl
  · intro h c hc
    unfold run_select_queryIssued at hc
    cases hcr : create_db_client env cfg with
    | error e => rw [hcr] at hc; simp at hc
    | ok u =>
      rw [hcr] at hc
      unfold executeQueryIssued at hc
      have h1 : resolveDbType cfg ≠ "clickhouse" := by rw [h]; decide
      rw [if_neg h1, if_pos h] at hc
      simp at hc
      subst hc
      exact ⟨rfl, rfl⟩

/-- C1 amended witness: on a clickhouse deployment, the call issued for
`SELECT 1` carries `readonly = 1`. -/
theorem run_select_query_readonly_enforcement_witness :
    readonlyEnforcedB (DbCall.chQuery "SELECT 1" roSettings) = true :=
  (run_select_query_readonly_enforcement envSel1 cfgCH "SELECT 1").1 rfl
    (DbCall.chQuery "SELECT 1" roSettings) (by decide)

/-- C3: no exception crosses any tool boundary.  Each tool is the total
wrapping of its fallible body: when the body succeeds the value is
passed through, and when it fails (for any input, any backend failure)
`list_databases` and `list_tables` return an `{"error": message}`
mapping while `run_select_query` returns the bare error-prefixed string
`f"error running query: {err}"`.  In particular an unreachable
clickhouse backend (connection raises) yields exactly those shapes. -/
theorem tools_catch_all_failures (env : Env) (cfg : Config) (database q : String)
    (like : Option String) (m : String) :
    ((∃ v, list_databasesBody env cfg = Except.ok v ∧ list_databases env cfg = v)
      ∨ (∃ e, list_databasesBody env cfg = Except.error e
          ∧ list_databases env cfg = Py.dict [("error", Py.str e)]))
    ∧ ((∃ v, list_tablesBody env cfg database like = Except.ok v
          ∧ list_tables env cfg database like = v)
      ∨ (∃ e, list_tablesBody env cfg database like = Except.error e
          ∧ list_tables env cfg database like = Py.dict [("error", Py.str e)]))
    ∧ ((∃ v, run_select_queryBody env cfg q = Except.ok v ∧ run_select_query env cfg q = v)
      ∨ (∃ e, run_select_queryBody env cfg q = Except.error e
          ∧ run_select_query env cfg q = Py.str ("error running query: " ++ e)))
    ∧ (env.chConnect = Except.error m → resolveDbType cfg = "clickhouse" →
        list_databases env cfg = Py.dict [("error", Py.str m)]
        ∧ list_tables env cfg database like = Py.dict [("error", Py.str m)]
        ∧ run_select_query env cfg q = Py.str ("error running query: " ++ m)) := by
  refine ⟨?_, ?_, ?_, ?_⟩
  · cases h : list_databasesBody env cfg with
    | ok v => exact Or.inl ⟨v, rfl, by unfold list_databases; rw [h]⟩
    | error e => exact Or.inr ⟨e, rfl, by unfold list_databases; rw [h]⟩
  · cases h : list_tablesBody env cfg database like with
    | ok v => exact Or.inl ⟨v, rfl, by unfold list_tables; rw [h]⟩
    | error e => exact Or.inr ⟨e, rfl, by unfold list_tables; rw [h]⟩
  · cases h : run_select_queryBody env cfg q with
    | ok v => exact Or.inl ⟨v, rfl, by unfold run_select_query; rw [h]⟩
    | error e => exact Or.inr ⟨e, rfl, by unfold run_select_query; rw [h]⟩
  · intro hcc hres
    have hcreate : create_db_client env cfg = Except.error m := by
      unfold create_db_client
      rw [if_pos hres, hcc]
    refine ⟨?_, ?_, ?_⟩
    · unfold list_databases list_databasesBody
      rw [hcreate]
      rfl
    · unfold list_tables list_tablesBody listedTables
      rw [hcreate]
      rfl
    · unfold run_select_query run_select_queryBody
      rw [hcreate]
      rfl

/-- C3 witness: against an unreachable backend (`Connection refused`)
each tool returns its claimed error shape. -/
theorem tools_catch_all_failures_witness :
    list_databases envBad cfgCH = Py.dict [("error", Py.str "Connection refused")]
    ∧ list_tables envBad cfgCH "d" Option.none
      = Py.dict [("error", Py.str "Connection refused")]
    ∧ run_select_query envBad cfgCH "SELECT 1"
      = Py.str ("error running query: " ++ "Connection refused") :=
  (tools_catch_all_failures envBad cfgCH "d" "SELECT 1" Option.none
    "Connection refused").2.2.2 rfl rfl

/-- C6: for every successful read-only query (on either backend), the
rows returned by `run_select_query` are built from the driver's column
list and row tuples, pairing each column name with the tuple element at
the same position and preserving the result-set column order — for a
duplicate-free projection the row dict is literally the ordered
column/value zip. -/
theorem run_select_query_row_normalization (env : Env) (cfg : Config) (q : String)
    (cols : List String) (rws : List (List Py)) :
    (resolveDbType cfg = "clickhouse" → env.chConnect = Except.ok () →
      env.chQuery q roSettings = Except.ok (cols, rws) →
      cols.Nodup → (∀ r ∈ rws, cols.length ≤ r.length) →
      run_select_query env cfg q = Py.list (rws.map (fun r => Py.dict (cols.zip r))))
    ∧ (resolveDbType cfg = "postgres" → env.pgConnect = Except.ok () →
      env.pgExecute q = Except.ok (cols, rws) →
      cols.Nodup → (∀ r ∈ rws, cols.length ≤ r.length) →
      run_select_query env cfg q = Py.list (rws.map (fun r => Py.dict (cols.zip r)))) := by
  constructor
  · intro hres hconn hq hnd hlen
    have hcreate : create_db_client env cfg = Except.ok () := by
      unfold create_db_client
      rw [if_pos hres, hconn]
    have hex : execute_queryInner env cfg q true
        = Except.ok (Py.list (rws.map (fun r => Py.dict (cols.zip r)))) := by
      unfold execute_queryInner
      rw [if_pos hres, hq]
      show (match buildRows cols rws with
        | Except.error e => Except.error e
        | Except.ok rows => Except.ok (Py.list rows)) = _
      rw [buildRows_zip cols rws hnd hlen]
    unfold run_select_query run_select_queryBody execute_query
    rw [hcreate, hex]
    rfl
  · intro hres hconn hq hnd hlen
    have h1 : resolveDbType cfg ≠ "clickhouse" := by rw [hres]; decide
    have hcreate : create_db_client env cfg = Except.ok () := by
      unfold create_db_client
      rw [if_neg h1, if_pos hres, hconn]
    have hex : execute_queryInner env cfg q true
        = Except.ok (Py.list (rws.map (fun r => Py.dict (cols.zip r)))) := by
      unfold execute_queryInner
      rw [if_neg h1, if_pos hres, hq]
      show (match buildRows cols rws with
        | Except.error e => Except.error e
        | Except.ok rows => Except.ok (Py.list rows)) = _
      rw [buildRows_zip cols rws hnd hlen]
    unfold run_select_query run_select_queryBody execute_query
    rw [hcreate, hex]
    rfl

/-- C6 witness: the specification's scenario
`run_select_query("SELECT 1 AS x") = [{"x": 1}]`. -/
theorem run_select_query_row_normalization_witness :
    run_select_query envSel1 cfgCH "SELECT 1 AS x" = Py.list [Py.dict [("x", Py.int 1)]] :=
  (run_select_query_row_normalization envSel1 cfgCH "SELECT 1 AS x" ["x"]
    [[Py.int 1]]).1 rfl rfl rfl (by decide) (by decide)

/-- C8: every row dict built by the result normalization of
`execute_query` has, as its key set, exactly the column names of the
query's projection: a name is a key iff it occurs among the driver's
column names.  When the projection repeats a name the dict keeps a
single entry for it (the last assignment wins), so the key set — not
the key multiset — matches the projection.  The first conjunct ties the
normalized rows to the `run_select_query` output. -/
theorem row_keys_match_projection (env : Env) (cfg : Config) (q : String)
    (cols : List String) (rws : List (List Py)) (rs : List Py) :
    (resolveDbType cfg = "clickhouse" → env.chConnect = Except.ok () →
      env.chQuery q roSettings = Except.ok (cols, rws) →
      buildRows cols rws = Except.ok rs →
      run_select_query env cfg q = Py.list rs)
    ∧ (buildRows cols rws = Except.ok rs →
      ∀ r ∈ rs, ∃ d, r = Py.dict d ∧ ∀ k, k ∈ d.map Prod.fst ↔ k ∈ cols) := by
  constructor
  · intro hres hconn hq hrows
    have hcreate : create_db_client env cfg = Except.ok () := by
      unfold create_db_client
      rw [if_pos hres, hconn]
    have hex : execute_queryInner env cfg q true = Except.ok (Py.list rs) := by
      unfold execute_queryInner
      rw [if_pos hres, hq]
      show (match buildRows cols rws with
        | Except.error e => Except.error e
        | Except.ok rows => Except.ok (Py.list rows)) = _
      rw [hrows]
    unfold run_select_query run_select_queryBody execute_query
    rw [hcreate, hex]
    rfl
  · exact buildRows_keys cols rws rs

/-- C8 witness: with the duplicated projection `x, x` the single row
normalizes to the one-key dict `{"x": 2}` (last assignment wins), whose
key set is exactly `{x}`. -/
theorem row_keys_match_projection_witness :
    run_select_query envDup cfgCH "SELECT 1 AS x, 2 AS x"
      = Py.list [Py.dict [("x", Py.int 2)]] :=
  (row_keys_match_projection envDup cfgCH "SELECT 1 AS x, 2 AS x" ["x", "x"]
    [[Py.int 1, Py.int 2]] [Py.dict [("x", Py.int 2)]]).1 rfl rfl rfl rfl

/-- C9: whenever `get_table_info`'s body succeeds, the returned Table
Descriptor's `columns` field is a list whose length equals the number of
rows (fields) the backend's schema-describe query reported for that
table — on clickhouse the `DESCRIBE TABLE` result rows, on postgres the
`information_schema.columns` result rows. -/
theorem descriptor_columns_length (env : Env) (cfg : Config) (db : String) (t : Py)
    (cn : List String) (rws : List (List Py)) (v : Py) :
    (resolveDbType cfg = "clickhouse" →
      env.chQuery (chDescribeQuery db t) roSettings = Except.ok (cn, rws) →
      get_table_infoBody env cfg db t = Except.ok v →
      pyLen (pyGet v "columns") = some rws.length)
    ∧ (resolveDbType cfg = "postgres" →
      env.pgExecute (pgSchemaQuery db t) = Except.ok (cn, rws) →
      get_table_infoBody env cfg db t = Except.ok v →
      pyLen (pyGet v "columns") = some rws.length) := by
  constructor
  · intro hres hq hok
    unfold get_table_infoBody at hok
    rw [if_pos hres] at hok
    cases hb : buildRows cn rws with
    | error e =>
      have hinner : execute_queryInner env cfg (chDescribeQuery db t) true
          = Except.error e := by
        unfold execute_queryInner
        rw [if_pos hres, hq]
        show (match buildRows cn rws with
          | Except.error e => Except.error e
          | Except.ok rows => Except.ok (Py.list rows)) = _
        rw [hb]
      have hcol : execute_query env cfg (chDescribeQuery db t) true
          = Except.error ("Query execution error: " ++ e) := by
        unfold execute_query
        rw [hinner]
      rw [hcol] at hok
      exact Except.noConfusion hok
    | ok rs =>
      have hinner : execute_queryInner env cfg (chDescribeQuery db t) true
          = Except.ok (Py.list rs) := by
        unfold execute_queryInner
        rw [if_pos hres, hq]
        show (match buildRows cn rws with
          | Except.error e => Except.error e
          | Except.ok rows => Except.ok (Py.list rows)) = _
        rw [hb]
      have hcol : execute_query env cfg (chDescribeQuery db t) true
          = Except.ok (Py.list rs) := by
        unfold execute_query
        rw [hinner]
      rw [hcol] at hok
      cases h2 : execute_query env cfg (chShowCreateQuery db t) true with
      | error e => rw [h2] at hok; exact Except.noConfusion hok
      | ok w =>
        rw [h2] at hok
        have h3 := Except.ok.inj hok
        subst h3
        have hfind : pyGet (Py.dict [("database", Py.str db), ("name", t),
            ("columns", Py.list rs), ("create_table_query", w)]) "columns"
            = some (Py.list rs) := rfl
        rw [hfind]
        show some rs.length = some rws.length
        rw [buildRows_length cn rws rs hb]
  · intro hres hq hok
    have h1 : resolveDbType cfg ≠ "clickhouse" := by rw [hres]; decide
    unfold get_table_infoBody at hok
    rw [if_neg h1, if_pos hres] at hok
    cases hb : buildRows cn rws with
    | error e =>
      have hinner : execute_queryInner env cfg (pgSchemaQuery db t) true
          = Except.error e := by
        unfold execute_queryInner
        rw [if_neg h1, if_pos hres, hq]
        show (match buildRows cn rws with
          | Except.error e => Except.error e
          | Except.ok rows => Except.ok (Py.list rows)) = _
        rw [hb]
      have hcol : execute_query env cfg (pgSchemaQuery db t) true
          = Except.error ("Query execution error: " ++ e) := by
        unfold execute_query
        rw [hinner]
      rw [hcol] at hok
      exact Except.noConfusion hok
    | ok rs =>
      have hinner : execute_queryInner env cfg (pgSchemaQuery db t) true
          = Except.ok (Py.list rs) := by
        unfold execute_queryInner
        rw [if_neg h1, if_pos hres, hq]
        show (match buildRows cn rws with
          | Except.error e => Except.error e
          | Except.ok rows => Except.ok (Py.list rows)) = _
        rw [hb]
      have hcol : execute_query env cfg (pgSchemaQuery db t) true
          = Except.ok (Py.list rs) := by
        unfold execute_query
        rw [hinner]
      rw [hcol] at hok
      cases h2 : execute_query env cfg (pgCreateQuery db t) true with
      | error e => rw [h2] at hok; exact Except.noConfusion hok
      | ok w =>
        rw [h2] at hok
        have h4 : pyIndex0 w >>= (fun first => Except.ok (Py.dict
            [("database", Py.str db), ("name", t), ("columns", Py.list rs),
             ("create_table_query", first)])) = Except.ok v := hok
        cases h3 : pyIndex0 w with
        | error e => rw [h3] at h4; exact Except.noConfusion h4
        | ok f =>
          rw [h3] at h4
          have h5 := Except.ok.inj h4
          subst h5
          have hfind : pyGet (Py.dict [("database", Py.str db), ("name", t),
              ("columns", Py.list rs), ("create_table_query", f)]) "columns"
              = some (Py.list rs) := rfl
          rw [hfind]
          show some rs.length = some rws.length
          rw [buildRows_length cn rws rs hb]

/-- C9 witness: the descriptor for `db.t` on the `envDesc` backend has a
`columns` list of length 2, matching the two describe-result rows. -/
theorem descriptor_columns_length_witness : pyLen (pyGet descT "columns") = some 2 :=
  (descriptor_columns_length envDesc cfgCH "db" (Py.str "t") ["name", "type"]
    [[Py.str "id", Py.str "UInt64"], [Py.str "v", Py.str "String"]] descT).1 rfl rfl rfl

/-- C2: when the listing phase of `list_tables` succeeds with tables
`ts` and exactly one position `k` has a failing descriptor construction
(message `m`) while every other position succeeds, the tool returns one
item per table in discovery order: the item at position `k` is the
`{"error": m}` mapping and every other item is a well-formed Table
Descriptor.  When instead the listing phase itself fails (client
creation or the table-listing query), the tool returns the single
top-level `{"error": message}` value. -/
theorem list_tables_partial_failure (env : Env) (cfg : Config) (db : String)
    (like : Option String) (ts : List Py) (k : Nat) (m : String) :
    (listedTables env cfg db like = Except.ok ts →
      k < ts.length →
      get_table_infoBody env cfg db (ts.getD k Py.none) = Except.error m →
      (∀ j, j < ts.length → j ≠ k →
        isOkB (get_table_infoBody env cfg db (ts.getD j Py.none)) = true) →
      list_tables env cfg db like
        = Py.list (ts.map (fun t => get_table_info env cfg db t))
      ∧ (ts.map (fun t => get_table_info env cfg db t)).length = ts.length
      ∧ (ts.map (fun t => get_table_info env cfg db t)).getD k Py.none
          = Py.dict [("error", Py.str m)]
      ∧ (∀ j, j < ts.length → j ≠ k →
          isDescriptor ((ts.map (fun t => get_table_info env cfg db t)).getD j Py.none)
            = true))
    ∧ (listedTables env cfg db like = Except.error m →
      list_tables env cfg db like = Py.dict [("error", Py.str m)]) := by
  constructor
  · intro hlisted hk herr hothers
    refine ⟨(list_tables_of_listed env cfg db like).1 ts hlisted, by simp, ?_, ?_⟩
    · rw [getD_map_getD (fun t => get_table_info env cfg db t) ts k hk]
      unfold get_table_info
      rw [herr]
    · intro j hj hne
      have ho := hothers j hj hne
      cases hb : get_table_infoBody env cfg db (ts.getD j Py.none) with
      | error e => rw [hb] at ho; exact absurd ho (by simp [isOkB])
      | ok v =>
        rw [getD_map_getD (fun t => get_table_info env cfg db t) ts j hj]
        unfold get_table_info
        rw [hb]
        exact get_table_infoBody_ok env cfg db (ts.getD j Py.none) v hb
  · exact (list_tables_of_listed env cfg db like).2 m

/-- C2 witness: a postgres database `d` with tables `a`, `b`, `c` where
only `b`'s describe query fails: `list_tables` returns three items, the
middle one the error mapping, the outer two valid descriptors. -/
theorem list_tables_partial_failure_witness :
    list_tables envW cfgPG "d" Option.none
      = Py.list (tsW.map (fun t => get_table_info envW cfgPG "d" t))
    ∧ (tsW.map (fun t => get_table_info envW cfgPG "d" t)).length = 3
    ∧ (tsW.map (fun t => get_table_info envW cfgPG "d" t)).getD 1 Py.none
      = Py.dict [("error", Py.str "Query execution error: boom")]
    ∧ isDescriptor ((tsW.map (fun t => get_table_info envW cfgPG "d" t)).getD 0 Py.none)
      = true
    ∧ isDescriptor ((tsW.map (fun t => get_table_info envW cfgPG "d" t)).getD 2 Py.none)
      = true := by
  have h := (list_tables_partial_failure envW cfgPG "d" Option.none tsW 1
    "Query execution error: boom").1 rfl (by decide) rfl (by decide)
  exact ⟨h.1, h.2.1, h.2.2.1, h.2.2.2 0 (by decide) (by decide),
    h.2.2.2 2 (by decide) (by decide)⟩

/-- C4: evaluation at the failing input.  On a clickhouse backend whose
`SHOW TABLES FROM shop` listing reports the single table `orders`, the
read-only `execute_query` returns normalized row mappings (never a
string), so the string branch of the extraction is dead and the
extracted "table names" are the row mappings themselves — not name
strings as the claim states.  The interpolated describe query then
embeds the mapping's `repr`.  The postgres branch, by contrast, does
extract the `table_name` string from each row mapping. -/
theorem list_tables_clickhouse_names_not_strings :
    execute_query envOne cfgCH (chListTablesQuery "shop" Option.none) true
      = Except.ok (Py.list [Py.dict [("name", Py.str "orders")]])
    ∧ extractTableNames "clickhouse" (Py.list [Py.dict [("name", Py.str "orders")]])
      = Except.ok [Py.dict [("name", Py.str "orders")]]
    ∧ listedTables envOne cfgCH "shop" Option.none
      = Except.ok [Py.dict [("name", Py.str "orders")]]
    ∧ allStringsB [Py.dict [("name", Py.str "orders")]] = false
    ∧ chDescribeQuery "shop" (Py.dict [("name", Py.str "orders")])
      = "DESCRIBE TABLE shop.`" ++ "\x7b" ++ sqt ++ "name" ++ sqt ++ ": "
        ++ sqt ++ "orders" ++ sqt ++ "\x7d" ++ "`"
    ∧ extractTableNames "postgres" (Py.list [Py.dict [("table_name", Py.str "a")]])
      = Except.ok [Py.str "a"]
    ∧ allStringsB [Py.str "a"] = true :=
  ⟨rfl, rfl, rfl, rfl, rfl, rfl, rfl⟩

/-- C7: evaluation at the specification's LIKE scenario.  The `like`
filter itself is applied exactly as claimed (no clause when absent or
empty, a `LIKE` clause when non-empty, on both dialects), and the
filtered listing yields exactly two items — but on clickhouse each
item's `name` field holds the raw result-row mapping
(`{"name": "orders"}`), not the table-name string `orders`, so the
scenario's "descriptors named `orders` and `order_items`" fails. -/
theorem list_tables_like_scenario_eval :
    (∀ db : String, chListTablesQuery db Option.none = "SHOW TABLES FROM " ++ db
      ∧ chListTablesQuery db (some "") = "SHOW TABLES FROM " ++ db)
    ∧ chListTablesQuery "shop" (some "ord%")
      = "SHOW TABLES FROM shop LIKE " ++ sqt ++ "ord%" ++ sqt
    ∧ pgListTablesQuery "shop" (some "ord%")
      = pgListTablesQuery "shop" Option.none ++ " AND table_name LIKE "
        ++ sqt ++ "ord%" ++ sqt
    ∧ list_tables envShop cfgCH "shop" (some "ord%") = Py.list [shopItem1, shopItem2]
    ∧ isDescriptor shopItem1 = true
    ∧ isDescriptor shopItem2 = true
    ∧ pyGet shopItem1 "name" = some (Py.dict [("name", Py.str "orders")])
    ∧ pyGet shopItem2 "name" = some (Py.dict [("name", Py.str "order_items")])
    ∧ nameFieldStr shopItem1 = Option.none
    ∧ nameFieldStr shopItem2 = Option.none :=
  ⟨fun _ => ⟨rfl, rfl⟩, rfl, rfl, rfl, rfl, rfl, rfl, rfl, rfl, rfl⟩
